import Mathlib

/-!
Verification development for `src/lib/nostr.ts`: a shallow embedding of the
identity/session store (`nostrAuth`), the profile-metadata directory
(`getProfileMetadata`) and the zap-invoice flow (`createInvoice`), together
with theorems settling the specification claims.

Modelling conventions:
- JavaScript exceptions are `Except JsErr`; a `TypeError` raised by
  dereferencing or destructuring `null`/`undefined` is `JsErr.typeError`.
- Third-party cryptography (secp256k1 public-key derivation, event signing,
  nip04 encryption) is modelled as opaque deterministic executable functions;
  no claim inspects the actual cryptographic values, only control flow,
  determinism and the validity checks the libraries perform.
- `sessionStorage` is the `slot` field of `AuthState`; the svelte store plus
  its persistence subscription is `storeSet`.
- External collaborators (the window.nostr signer capability, the relay pool,
  `nip19.decode`, `nip57.getZapEndpoint`, HTTP fetch) are parameters of the
  embedded operations, quantified over in the theorems.
-/

namespace Nostr

/-- Errors observable from the module. `typeError` stands for a JavaScript
`TypeError` (null/undefined dereference or destructuring); `invalidSecretKey`
for the error the secp256k1 library throws on an invalid secret key;
`named n m` for a JS `Error` with `error.name = n` and message `m`. -/
inductive JsErr where
  | typeError
  | invalidSecretKey
  | named (errName msg : String)
deriving Repr, DecidableEq

/-- A nostr event as used by the module. `idStr`/`sig` model the derived
`id`/`sig` fields, absent on unsigned events. -/
structure Event where
  kind : Nat
  content : String
  created_at : Nat
  tags : List (List String)
  pubkey : String
  idStr : Option String := none
  sig : Option String := none
deriving Repr, DecidableEq

/-- Value of a hex digit, or `none` for a non-hex character. -/
def hexDigit (c : Char) : Option Nat :=
  if '0' ≤ c ∧ c ≤ '9' then some (c.toNat - '0'.toNat)
  else if 'a' ≤ c ∧ c ≤ 'f' then some (c.toNat - 'a'.toNat + 10)
  else if 'A' ≤ c ∧ c ≤ 'F' then some (c.toNat - 'A'.toNat + 10)
  else none

/-- `Buffer.from(s, 'hex')` (node / feross buffer semantics, the library the
source imports): decode two-character pairs greedily and truncate at the first
invalid or incomplete pair. -/
def bufferFromHex : List Char → List Nat
  | c1 :: c2 :: rest =>
    match hexDigit c1, hexDigit c2 with
    | some hi, some lo => (16 * hi + lo) :: bufferFromHex rest
    | _, _ => []
  | _ => []

def hexDigitChar (n : Nat) : Char :=
  if n < 10 then Char.ofNat (48 + n) else Char.ofNat (97 + n - 10)

/-- `Buffer.prototype.toString('hex')`: lowercase hex of a byte list. -/
def hexOfBytes (l : List Nat) : String :=
  String.join (l.map fun b => String.mk [hexDigitChar (b / 16), hexDigitChar (b % 16)])

/-- Big-endian byte list to natural number. -/
def bytesToNat (l : List Nat) : Nat := l.foldl (fun a b => a * 256 + b) 0

/-- The secp256k1 group order `n`. -/
def secpOrder : Nat :=
  0xFFFFFFFFFFFFFFFFFFFFFFFFFFFFFFFEBAAEDCE6AF48A03BBFD25E8CD0364141

/-- The validity check the secp256k1 schnorr library performs on a secret key:
exactly 32 bytes whose big-endian value lies in `[1, n-1]`. -/
def validSecretBytes (l : List Nat) : Bool :=
  (l.length == 32) && decide (0 < bytesToNat l) && decide (bytesToNat l < secpOrder)

/-- Modelled: the x-only public key derivation of `nostr-tools.getPublicKey`
is treated as an opaque deterministic function of the 32 secret bytes; the
claims only use that it is a function (determinism), never its value. -/
def derivePub (l : List Nat) : String := "pub:" ++ hexOfBytes l

/-- `nostr-tools.getPublicKey` on a byte array: throws on an invalid secret
key, otherwise returns the derived public key hex. -/
def getPublicKey (sk : List Nat) : Except JsErr String :=
  if validSecretBytes sk then .ok (derivePub sk) else .error .invalidSecretKey

/-- The value held by the svelte store when logged in: an optional local
secret (hex string) and the public key. -/
structure Keys where
  privkey : Option String := none
  pubkey : String
deriving Repr, DecidableEq

/-- Module state: the svelte store contents and the `sessionStorage`
`private-key` slot. -/
structure AuthState where
  store : Option Keys
  slot : Option String
deriving Repr, DecidableEq

/-- JS truthiness of `keys?.privkey` as tested by the persistence
subscription. -/
def hasTruthyPrivkey : Option Keys → Bool
  | some k => match k.privkey with
    | some p => decide (p ≠ "")
    | none => false
  | none => false

/-- `store.set(k)` together with the persistence subscription
`store.subscribe((keys) => \x7b if (keys?.privkey) sessionStorage.setItem('private-key', keys.privkey) \x7d)`:
the slot is written exactly when the new value carries a truthy privkey. -/
def storeSet (st : AuthState) (k : Option Keys) : AuthState :=
  { store := k,
    slot := match k with
      | some kk => match kk.privkey with
        | some p => if p = "" then st.slot else some p
        | none => st.slot
      | none => st.slot }

/-- Module initialization: read the slot (`sessionStorage.getItem`); a truthy
slot initializes the store by re-deriving the public key, and the persistence
subscription immediately re-writes the same secret to the slot. -/
def initAuth (slot : Option String) : Except JsErr AuthState :=
  match slot with
  | none => .ok { store := none, slot := none }
  | some pk =>
    if pk = "" then .ok { store := none, slot := some pk }
    else
      match getPublicKey (bufferFromHex pk.toList) with
      | .ok pub =>
        .ok (storeSet { store := none, slot := some pk }
          (some { privkey := some pk, pubkey := pub }))
      | .error e => .error e

/-- A simulated process restart: only the slot survives and module
initialization runs again. -/
def restartAuth (st : AuthState) : Except JsErr AuthState := initAuth st.slot

/-- `signOut()`: `store.set(null)` (subscription sees no privkey), then
`sessionStorage.removeItem('private-key')`. -/
def signOut (st : AuthState) : AuthState :=
  let st1 := storeSet st none
  { st1 with slot := none }

/-- `loginWithPrivkey(privkey)`: derive the public key from the (leniently)
hex-decoded input, then set the store (persisting the verbatim input). -/
def loginWithPrivkey (st : AuthState) (privkey : String) : Except JsErr AuthState :=
  match getPublicKey (bufferFromHex privkey.toList) with
  | .ok pub => .ok (storeSet st (some { privkey := some privkey, pubkey := pub }))
  | .error e => .error e

/-- Outcome of `window.nostr` discovery inside `tryLogin`: the capability is
absent, returns a public key, or throws (e.g. user rejection). -/
inductive SignerDiscovery where
  | absent
  | returns (pub : String)
  | throws
deriving Repr, DecidableEq

/-- Result of `tryLogin`/`loginWithRandomKeys`: returned boolean, new module
state, and counts of the advisory `alert` and clipboard side effects. -/
structure TryLoginOut where
  result : Bool
  state : AuthState
  alerts : Nat
  clipboardWrites : Nat
deriving Repr, DecidableEq

/-- `loginWithRandomKeys()` with the freshly generated secret bytes made
explicit: derive the public key, copy the pair to the clipboard, show the
one-time advisory alert, set the store. -/
def loginWithRandomKeys (st : AuthState) (freshSk : List Nat) : Except JsErr TryLoginOut :=
  (getPublicKey freshSk).map fun pub =>
    { result := true,
      state := storeSet st (some { privkey := some (hexOfBytes freshSk), pubkey := pub }),
      alerts := 1,
      clipboardWrites := 1 }

/-- JS truthiness of `get(store)?.pubkey` as tested by `tryLogin`. -/
def truthyPubkey (st : AuthState) : Bool :=
  match st.store with
  | some k => decide (k.pubkey ≠ "")
  | none => false

/-- `tryLogin()`: no-op when a pubkey is already present; otherwise discover
`window.nostr` — on success store only the discovered public key; when the
capability is absent or its call throws, fall back to
`loginWithRandomKeys`. -/
def tryLogin (disc : SignerDiscovery) (freshSk : List Nat) (st : AuthState) :
    Except JsErr TryLoginOut :=
  if truthyPubkey st then
    .ok { result := true, state := st, alerts := 0, clipboardWrites := 0 }
  else
    match disc with
    | .returns pub =>
      .ok { result := true,
            state := storeSet st (some { privkey := none, pubkey := pub }),
            alerts := 0, clipboardWrites := 0 }
    | .throws => loginWithRandomKeys st freshSk
    | .absent => loginWithRandomKeys st freshSk

/-- Modelled: `nostr-tools.finalizeEvent` — stamps the derived pubkey and the
derived `id`/`sig` (opaque deterministic values); throws the library error on
an invalid secret key. -/
def finalizeEvent (kind : Nat) (content : String) (created_at : Nat)
    (tags : List (List String)) (sk : List Nat) : Except JsErr Event :=
  (getPublicKey sk).map fun pub =>
    { kind, content, created_at, tags, pubkey := pub,
      idStr := some ("id:" ++ toString kind ++ ":" ++ content ++ ":" ++ hexOfBytes sk),
      sig := some ("sig:" ++ hexOfBytes sk) }

/-- The `window.nostr!.signEvent(blankEvent)` path of `makeEvent`: a
`TypeError` when the capability is absent, otherwise the capability (which
may itself fail, e.g. rejection) applied to the blank event. -/
def makeEventExt (cap : Option (Event → Except JsErr Event)) (pub : String)
    (now kind : Nat) (content : String) (tags : List (List String)) :
    Except JsErr Event :=
  match cap with
  | some f => f { kind, content, created_at := now, tags, pubkey := pub }
  | none => .error .typeError

/-- `makeEvent(kind, content, tags)`: destructures `get(store)!` — a
`TypeError` when the store holds null; with a truthy privkey signs locally,
otherwise delegates to `window.nostr!.signEvent`. -/
def makeEvent (cap : Option (Event → Except JsErr Event)) (now : Nat)
    (st : AuthState) (kind : Nat) (content : String) (tags : List (List String)) :
    Except JsErr Event :=
  match st.store with
  | none => .error .typeError
  | some keys =>
    match keys.privkey with
    | some p =>
      if p = "" then makeEventExt cap keys.pubkey now kind content tags
      else finalizeEvent kind content now tags (bufferFromHex p.toList)
    | none => makeEventExt cap keys.pubkey now kind content tags

/-- The `window.nostr!.nip04.encrypt/decrypt` path: a `TypeError` when the
capability is absent, otherwise the capability applied to the arguments. -/
def extNip04 (cap : Option (String → String → Except JsErr String))
    (other text : String) : Except JsErr String :=
  match cap with
  | some f => f other text
  | none => .error .typeError

/-- `encryptDM(otherPubkey, text)`: with a truthy stored privkey encrypt
locally with `nip04.encrypt` (modelled as the quantified collaborator
`nip04encrypt`), otherwise delegate to `window.nostr!.nip04.encrypt`. -/
def encryptDM (cap : Option (String → String → Except JsErr String))
    (nip04encrypt : String → String → String → String) (st : AuthState)
    (other text : String) : Except JsErr String :=
  match st.store with
  | some k =>
    match k.privkey with
    | some p =>
      if p = "" then extNip04 cap other text else .ok (nip04encrypt p other text)
    | none => extNip04 cap other text
  | none => extNip04 cap other text

/-- `decryptDM(otherPubkey, text)`: same shape as `encryptDM` with
`nip04.decrypt`. -/
def decryptDM (cap : Option (String → String → Except JsErr String))
    (nip04decrypt : String → String → String → String) (st : AuthState)
    (other text : String) : Except JsErr String :=
  match st.store with
  | some k =>
    match k.privkey with
    | some p =>
      if p = "" then extNip04 cap other text else .ok (nip04decrypt p other text)
    | none => extNip04 cap other text
  | none => extNip04 cap other text

/-- The hard-coded relay list. -/
def relayList : List String :=
  ["wss://nostr-pub.wellorder.net", "wss://relay.nostr.band", "wss://relay.damus.io",
   "wss://nostr.fmt.wiz.biz", "wss://offchain.pub", "wss://relay.current.fyi",
   "wss://nos.lol"]

/-- Outcome of one `relayPool.get` call: the call threw, or resolved with an
event or null. -/
inductive RelayLookup where
  | failed
  | found (e : Option Event)
deriving Repr

/-- `getProfileMetadata(publicKey)` over an explicit cache (the
`profilesMetadata` array) and one relay outcome. Returns
(result, new cache, number of relay queries issued by this call). A cache hit
is an exact match on `pubkey`; a relay failure is caught, logged and yields
null; a found event is appended to the cache. -/
def getProfileMetadata (relay : RelayLookup) (cache : List Event)
    (publicKey : String) : Option Event × List Event × Nat :=
  match cache.find? (fun p => p.pubkey == publicKey) with
  | some e => (some e, cache, 0)
  | none =>
    match relay with
    | .failed => (none, cache, 1)
    | .found none => (none, cache, 1)
    | .found (some e) => (some e, cache ++ [e], 1)

/-- Total number of relay queries issued by two successive
`getProfileMetadata` calls for the same key, starting from an empty cache. -/
def profileQueriesTwice (r1 r2 : RelayLookup) (pk : String) : Nat :=
  let first := getProfileMetadata r1 [] pk
  first.2.2 + (getProfileMetadata r2 first.2.1 pk).2.2

/-- An unsigned event template (the zap request built by
`nip57.makeZapRequest`). -/
structure EventTemplate where
  kind : Nat
  created_at : Nat
  content : String
  tags : List (List String)
deriving Repr, DecidableEq

/-- Modelled: `nostr-tools/nip57.makeZapRequest` (third-party) — throws when
`amount` or `profile` is falsy; otherwise a kind-9734 template with tags
`p`, `amount` (the given amount's decimal string, verbatim), `relays`, and
`e` appended when an event id is given. -/
def makeZapRequest (profile eventId : String) (amount : Nat)
    (relays : List String) (comment : String) (now : Nat) :
    Except JsErr EventTemplate :=
  if amount = 0 then .error (.named "Error" "amount not given")
  else if profile = "" then .error (.named "Error" "profile not given")
  else
    .ok { kind := 9734, created_at := now, content := comment,
          tags := [["p", profile], ["amount", toString amount],
                   ["relays"] ++ relays] ++
                  (if eventId ≠ "" then [["e", eventId]] else []) }

def jsonEscapeChar (c : Char) : String :=
  if c = '"' then "\\\""
  else if c = '\\' then "\\\\"
  else if c = '\n' then "\\n"
  else if c = '\r' then "\\r"
  else if c = '\t' then "\\t"
  else String.singleton c

def jsonEscape (s : String) : String := String.join (s.toList.map jsonEscapeChar)

def jsonOfString (s : String) : String := "\"" ++ jsonEscape s ++ "\""

def jsonOfStringList (l : List String) : String :=
  "[" ++ String.intercalate "," (l.map jsonOfString) ++ "]"

def jsonOfTags (l : List (List String)) : String :=
  "[" ++ String.intercalate "," (l.map jsonOfStringList) ++ "]"

/-- `JSON.stringify` of the zap request template: keys in the object's
insertion order `kind, created_at, content, tags`. -/
def jsonOfTemplate (t : EventTemplate) : String :=
  "\x7b\"kind\":" ++ toString t.kind ++
  ",\"created_at\":" ++ toString t.created_at ++
  ",\"content\":" ++ jsonOfString t.content ++
  ",\"tags\":" ++ jsonOfTags t.tags ++ "\x7d"

/-- Split a character list at the first occurrence of `c`; the second
component is `none` when `c` does not occur. -/
def breakAtChar (c : Char) : List Char → List Char × Option (List Char)
  | [] => ([], none)
  | x :: xs =>
    if x = c then ([], some xs)
    else
      let r := breakAtChar c xs
      (x :: r.1, r.2)

/-- Split a character list into the segments between occurrences of `c`. -/
def splitByChar (c : Char) : List Char → List (List Char)
  | [] => [[]]
  | x :: xs =>
    let r := splitByChar c xs
    if x = c then [] :: r
    else
      match r with
      | [] => [[x]]
      | h :: t => (x :: h) :: t

/-- One `key=value` pair of a query string, split at the first `=` (the value
may itself contain `=`); a pair without `=` gets the empty value. -/
def parseQueryPair (kv : List Char) : String × String :=
  let b := breakAtChar '=' kv
  (String.mk b.1, match b.2 with | some v => String.mk v | none => "")

/-- `URLSearchParams` over a raw query string (claims only exercise
percent-free queries, so no percent-decoding is modelled). -/
def parseQuery (q : List Char) : List (String × String) :=
  match q with
  | [] => []
  | _ => (splitByChar '&' q).map parseQueryPair

structure URLParts where
  protocol : String
  host : String
  pathname : String
  searchPairs : List (String × String)
deriving Repr, DecidableEq

/-- Modelled: WHATWG `new URL` restricted to scheme://host/path?query URLs
without userinfo or fragment (the shape of every zap endpoint the flow
handles); an unparsable input throws, as `new URL` does. -/
def parseURL (s : String) : Option URLParts :=
  let br := breakAtChar ':' s.toList
  match br.2 with
  | some ('/' :: '/' :: rest) =>
    if br.1 = [] ∨ rest = [] then none
    else
      let hp := breakAtChar '/' rest
      let pathAndQuery : List Char := match hp.2 with
        | some t => '/' :: t
        | none => ['/']
      let pq := breakAtChar '?' pathAndQuery
      some { protocol := String.mk br.1 ++ ":",
             host := String.mk hp.1,
             pathname := String.mk pq.1,
             searchPairs := match pq.2 with
               | some q => parseQuery q
               | none => [] }
  | _ => none

/-- JS object insertion: overwrite in place when the key exists, otherwise
append. -/
def objInsert (kvs : List (String × String)) (k v : String) :
    List (String × String) :=
  if kvs.any (fun p => p.1 == k) then
    kvs.map (fun p => if p.1 == k then (k, v) else p)
  else kvs ++ [(k, v)]

/-- `Object.fromEntries`: later duplicate keys overwrite earlier ones, which
keep their insertion position. -/
def objFromEntries (l : List (String × String)) : List (String × String) :=
  l.foldl (fun acc p => objInsert acc p.1 p.2) []

/-- The `URLSearchParams(\x7b...Object.fromEntries(callbackUrl.searchParams),
comment, amount, nostr\x7d)` construction: the endpoint's existing query
parameters merged with `comment` (`message || ''` is the identity on
strings), `amount` (`Math.floor(amount * 1000)` — amounts are modelled as
naturals, on which the floor is the identity) and the JSON-serialized zap
request. -/
def buildParams (search : List (String × String)) (message : String)
    (amount : Nat) (nostrJson : String) : List (String × String) :=
  let base := objFromEntries search
  let base := objInsert base "comment" message
  let base := objInsert base "amount" (toString (amount * 1000))
  objInsert base "nostr" nostrJson

/-- Query-string serialization of the parameter list (claims only inspect it
at the parameter level, so percent-encoding is not modelled). -/
def serializeParams (l : List (String × String)) : String :=
  String.intercalate "&" (l.map fun p => p.1 ++ "=" ++ p.2)

/-- The spec's `ProfileNotFound` error: the code's `Error` named
`ProfileMetadata`. -/
def profileNotFoundErr : JsErr := .named "ProfileMetadata" "Unable get profile metadata"

/-- The spec's `NoPaymentEndpoint` error: the code's `Error` named
`ZapEndpoint`. -/
def noPaymentEndpointErr : JsErr := .named "ZapEndpoint" "Unable get profile LUD-16"

/-- The spec's `InvoiceRequestFailed` error: the code's `Error` named
`InvoiceRequest`. -/
def invoiceRequestErr : JsErr := .named "InvoiceRequest" "Unable to make request invoice"

/-- Collaborators of `createInvoice`: `nip19.decode(...).data.toString()`,
the profile directory, `nip57.getZapEndpoint` (which catches internally and
yields null), and HTTP fetch returning a status code and the result of
parsing the body as JSON (the parse is performed only on success statuses). -/
structure InvoiceCollab where
  decode : String → Except JsErr String
  profileLookup : String → Option Event
  zapEndpointOf : Event → Option String
  fetch : String → Nat × Except JsErr String

deriving instance DecidableEq for Except

/-- Observable outcome of the flow: the returned invoice JSON or the thrown
error, the callback URLs fetched, how many times a response body was parsed
as JSON, and how many errors were logged at the flow boundary. -/
structure InvoiceOutcome where
  result : Except JsErr String
  fetchedUrls : List String
  jsonParses : Nat
  logs : Nat
deriving Repr, DecidableEq

/-- The `fetch`/status-check/json tail of `createInvoice`: `response.ok` is
status in [200, 300); a non-ok status throws the `InvoiceRequest` error
without touching the body. -/
def invoiceFetchStep (c : InvoiceCollab) (fullUrl : String) : InvoiceOutcome :=
  let resp := c.fetch fullUrl
  if 200 ≤ resp.1 ∧ resp.1 < 300 then
    match resp.2 with
    | .ok j => { result := .ok j, fetchedUrls := [fullUrl], jsonParses := 1, logs := 0 }
    | .error e => { result := .error e, fetchedUrls := [fullUrl], jsonParses := 1, logs := 0 }
  else
    { result := .error invoiceRequestErr, fetchedUrls := [fullUrl],
      jsonParses := 0, logs := 0 }

/-- The body of `createInvoice`'s `try` block: decode the destination,
resolve the profile, resolve the zap endpoint, build the zap request and the
merged callback URL, then fetch it. -/
def createInvoiceTry (c : InvoiceCollab) (now : Nat)
    (destination message : String) (amount : Nat) (eventId : String) :
    InvoiceOutcome :=
  match c.decode destination with
  | .error e => { result := .error e, fetchedUrls := [], jsonParses := 0, logs := 0 }
  | .ok publicKey =>
    match c.profileLookup publicKey with
    | none => { result := .error profileNotFoundErr, fetchedUrls := [], jsonParses := 0, logs := 0 }
    | some pm =>
      match c.zapEndpointOf pm with
      | none => { result := .error noPaymentEndpointErr, fetchedUrls := [], jsonParses := 0, logs := 0 }
      | some zep =>
        match makeZapRequest publicKey eventId amount relayList message now with
        | .error e => { result := .error e, fetchedUrls := [], jsonParses := 0, logs := 0 }
        | .ok zr =>
          match parseURL zep with
          | none => { result := .error .typeError, fetchedUrls := [], jsonParses := 0, logs := 0 }
          | some u =>
            let params := buildParams u.searchPairs message amount (jsonOfTemplate zr)
            let fullUrl := u.protocol ++ "//" ++ u.host ++ u.pathname ++ "?" ++
              serializeParams params
            invoiceFetchStep c fullUrl

/-- `createInvoice(destination, message, amount, eventId)`: the `try` body
wrapped in the boundary `catch`, which logs the error and re-throws it. -/
def createInvoice (c : InvoiceCollab) (now : Nat) (destination message : String)
    (amount : Nat) (eventId : String) : InvoiceOutcome :=
  let r := createInvoiceTry c now destination message amount eventId
  match r.result with
  | .error _ => { r with logs := r.logs + 1 }
  | .ok _ => r

/-- Claim-level predicate: the input is literally 64 hex characters whose
32 bytes form a valid secp256k1 secret key. -/
def isValidSecretKeyHex (s : String) : Bool :=
  (s.length == 64) && s.toList.all (fun c => (hexDigit c).isSome) &&
    validSecretBytes (bufferFromHex s.toList)

/-- A concrete valid secret key in hex (value 1). -/
def goodKeyHex : String := String.mk (List.replicate 63 '0' ++ ['1'])

/-- A malformed input accepted by the code: 64 hex characters followed by two
non-hex characters. -/
def malformedKeyInput : String := String.mk (List.replicate 64 '1') ++ "zz"

theorem getPublicKey_valid {sk : List Nat} (h : validSecretBytes sk = true) :
    getPublicKey sk = .ok (derivePub sk) := by
  simp [getPublicKey, h]

theorem isValidSecretKeyHex_validBytes {s : String}
    (h : isValidSecretKeyHex s = true) :
    validSecretBytes (bufferFromHex s.toList) = true := by
  simp [isValidSecretKeyHex, Bool.and_eq_true] at h
  exact h.2

theorem isValidSecretKeyHex_ne_empty {s : String}
    (h : isValidSecretKeyHex s = true) : s ≠ "" := by
  intro he
  subst he
  simp [isValidSecretKeyHex] at h

/-- C1 (counterexample): on a `LoggedOut` session (store holds null) with an
external signer capability present, `encryptDM` does not fail at all: it
delegates to the capability and succeeds — contradicting the claim that every
encryption attempt while `LoggedOut` fails with `NoActiveSession`. -/
theorem c1_loggedOut_counterexample :
    encryptDM (some fun _ _ => .ok "ciphertext") (fun _ _ _ => "")
      { store := none, slot := none } "otherpk" "hello" = .ok "ciphertext" := rfl

/-- C1 (amended): while the session is `LoggedOut`, `makeEvent` throws a
`TypeError` from destructuring the null store (the code has no
`NoActiveSession` error); `encryptDM`/`decryptDM` throw a `TypeError` when no
external signer capability is present, and when one is present they delegate
to it unconditionally. -/
theorem c1_loggedOut_behavior (cap : Option (Event → Except JsErr Event))
    (nip04encrypt nip04decrypt : String → String → String → String)
    (f g : String → String → Except JsErr String)
    (now kind : Nat) (content other text : String) (tags : List (List String))
    (slot : Option String) :
    makeEvent cap now { store := none, slot := slot } kind content tags =
      .error .typeError ∧
    encryptDM none nip04encrypt { store := none, slot := slot } other text =
      .error .typeError ∧
    decryptDM none nip04decrypt { store := none, slot := slot } other text =
      .error .typeError ∧
    encryptDM (some f) nip04encrypt { store := none, slot := slot } other text =
      f other text ∧
    decryptDM (some g) nip04decrypt { store := none, slot := slot } other text =
      g other text :=
  ⟨rfl, rfl, rfl, rfl, rfl⟩

/-- C3 (counterexample): `malformedKeyInput` is not valid hex encoding a
32-byte secret key, yet `loginWithPrivkey` succeeds on it, because
`Buffer.from(-, 'hex')` silently truncates at the first invalid pair. -/
theorem c3_malformed_accepted :
    isValidSecretKeyHex malformedKeyInput = false ∧
    ∃ st1, loginWithPrivkey { store := none, slot := none } malformedKeyInput =
      .ok st1 :=
  ⟨by decide, ⟨_, rfl⟩⟩

/-- C3 (amended): `loginWithPrivkey` succeeds exactly when the greedily
hex-decoded prefix of the input forms a valid 32-byte secret key, and
otherwise fails with the key library's invalid-secret-key error — there is no
`MalformedKey`-named error, and malformed inputs with a valid decodable
prefix are accepted. -/
theorem c3_login_validity (st : AuthState) (s : String) :
    (validSecretBytes (bufferFromHex s.toList) = true →
      loginWithPrivkey st s = .ok (storeSet st
        (some { privkey := some s,
                pubkey := derivePub (bufferFromHex s.toList) }))) ∧
    (validSecretBytes (bufferFromHex s.toList) = false →
      loginWithPrivkey st s = .error .invalidSecretKey) := by
  constructor <;> intro h <;> simp only [String.toList] at h <;>
    simp [loginWithPrivkey, getPublicKey, h]

/-- C3 (witness): the amended theorem applied to a concrete valid key. -/
theorem c3_login_validity_witness :
    validSecretBytes (bufferFromHex goodKeyHex.toList) = true ∧
    loginWithPrivkey { store := none, slot := none } goodKeyHex =
      .ok (storeSet { store := none, slot := none }
        (some { privkey := some goodKeyHex,
                pubkey := derivePub (bufferFromHex goodKeyHex.toList) })) :=
  ⟨by decide, (c3_login_validity { store := none, slot := none } goodKeyHex).1
    (by decide)⟩

/-- C4: for every discovery outcome and every starting state, `tryLogin`
returns success and leaves the session Active; starting from `LoggedOut`,
discovery success stores only the discovered public key with no advisory,
while capability absence or a throwing capability stores a freshly generated
LocalKey session with exactly one advisory alert. -/
theorem c4_tryLogin_always_identity (disc : SignerDiscovery) (st : AuthState)
    (sk : List Nat) (hsk : validSecretBytes sk = true) :
    ∃ out, tryLogin disc sk st = .ok out ∧ out.result = true ∧
      out.state.store.isSome = true ∧
      (st.store = none →
        match disc with
        | .returns pub =>
          out.state.store = some { privkey := none, pubkey := pub } ∧
          out.alerts = 0
        | _ =>
          out.state.store = some { privkey := some (hexOfBytes sk),
                                   pubkey := derivePub sk } ∧
          out.alerts = 1) := by
  obtain ⟨store, slot⟩ := st
  by_cases htr : truthyPubkey ⟨store, slot⟩ = true
  · refine ⟨{ result := true, state := ⟨store, slot⟩, alerts := 0,
              clipboardWrites := 0 }, by simp [tryLogin, htr], rfl, ?_, ?_⟩
    · cases store with
      | none => simp [truthyPubkey] at htr
      | some k => rfl
    · intro hc
      cases store with
      | none => simp [truthyPubkey] at htr
      | some k => simp at hc
  · rw [Bool.not_eq_true] at htr
    cases disc with
    | returns pub =>
      exact ⟨{ result := true,
               state := storeSet ⟨store, slot⟩ (some { privkey := none, pubkey := pub }),
               alerts := 0, clipboardWrites := 0 },
        by simp [tryLogin, htr], rfl, rfl, fun _ => ⟨rfl, rfl⟩⟩
    | throws =>
      refine ⟨{ result := true,
                state := storeSet ⟨store, slot⟩
                  (some { privkey := some (hexOfBytes sk), pubkey := derivePub sk }),
                alerts := 1, clipboardWrites := 1 },
        ?_, rfl, rfl, fun _ => ⟨rfl, rfl⟩⟩
      simp [tryLogin, htr, loginWithRandomKeys, getPublicKey_valid hsk,
        Except.map]
    | absent =>
      refine ⟨{ result := true,
                state := storeSet ⟨store, slot⟩
                  (some { privkey := some (hexOfBytes sk), pubkey := derivePub sk }),
                alerts := 1, clipboardWrites := 1 },
        ?_, rfl, rfl, fun _ => ⟨rfl, rfl⟩⟩
      simp [tryLogin, htr, loginWithRandomKeys, getPublicKey_valid hsk,
        Except.map]

/-- C4 (witness): the theorem applied with the capability absent, a concrete
valid fresh key and a `LoggedOut` start. -/
theorem c4_tryLogin_always_identity_witness :
    validSecretBytes (List.replicate 31 0 ++ [7]) = true ∧
    ∃ out, tryLogin .absent (List.replicate 31 0 ++ [7])
        { store := none, slot := none } = .ok out ∧ out.result = true ∧
      out.state.store.isSome = true ∧
      out.state.store = some
        { privkey := some (hexOfBytes (List.replicate 31 0 ++ [7])),
          pubkey := derivePub (List.replicate 31 0 ++ [7]) } ∧
      out.alerts = 1 := by
  refine ⟨by decide, ?_⟩
  obtain ⟨out, h1, h2, h3, h4⟩ :=
    c4_tryLogin_always_identity .absent { store := none, slot := none }
      (List.replicate 31 0 ++ [7]) (by decide)
  exact ⟨out, h1, h2, h3, (h4 rfl).1, (h4 rfl).2⟩

/-- C5: `loginWithPrivkey` on a valid hex secret key followed by a simulated
restart restores the very same state: an Active LocalKey session with the
same re-derived public key, with the slot holding the same secret and nothing
else changed by the restore. -/
theorem c5_login_restart_restores (st : AuthState) (s : String)
    (hs : isValidSecretKeyHex s = true) :
    ∃ st1, loginWithPrivkey st s = .ok st1 ∧
      restartAuth st1 = .ok st1 ∧
      st1.store = some { privkey := some s,
                         pubkey := derivePub (bufferFromHex s.toList) } ∧
      st1.slot = some s := by
  have hvb := isValidSecretKeyHex_validBytes hs
  have hne := isValidSecretKeyHex_ne_empty hs
  refine ⟨{ store := some { privkey := some s,
                            pubkey := derivePub (bufferFromHex s.toList) },
            slot := some s }, ?_, ?_, rfl, rfl⟩
  · simp only [String.toList] at hvb
    simp [loginWithPrivkey, getPublicKey, hvb, storeSet, hne]
  · simp only [String.toList] at hvb
    simp [restartAuth, initAuth, hne, getPublicKey, hvb, storeSet]

/-- C5 (witness): the theorem applied to a concrete valid key. -/
theorem c5_login_restart_restores_witness :
    isValidSecretKeyHex goodKeyHex = true ∧
    ∃ st1, loginWithPrivkey { store := none, slot := none } goodKeyHex = .ok st1 ∧
      restartAuth st1 = .ok st1 ∧
      st1.store = some { privkey := some goodKeyHex,
                         pubkey := derivePub (bufferFromHex goodKeyHex.toList) } ∧
      st1.slot = some goodKeyHex :=
  ⟨by decide,
    c5_login_restart_restores { store := none, slot := none } goodKeyHex (by decide)⟩

/-- C6: `loginWithPrivkey` on a valid hex key, then `signOut`, then a
simulated restart yields `LoggedOut`: `signOut` clears both the store and the
persisted slot, and initialization from the cleared slot restores nothing. -/
theorem c6_signout_restart_loggedOut (st : AuthState) (s : String)
    (hs : isValidSecretKeyHex s = true) :
    ∃ st1, loginWithPrivkey st s = .ok st1 ∧
      signOut st1 = { store := none, slot := none } ∧
      restartAuth (signOut st1) = .ok { store := none, slot := none } := by
  have hvb := isValidSecretKeyHex_validBytes hs
  refine ⟨storeSet st (some ⟨some s, derivePub (bufferFromHex s.toList)⟩),
    ?_, rfl, rfl⟩
  simp only [String.toList] at hvb
  simp [loginWithPrivkey, getPublicKey, hvb]

/-- C6 (witness): the theorem applied to a concrete valid key. -/
theorem c6_signout_restart_loggedOut_witness :
    isValidSecretKeyHex goodKeyHex = true ∧
    ∃ st1, loginWithPrivkey { store := some { privkey := none, pubkey := "p" },
                              slot := none } goodKeyHex = .ok st1 ∧
      signOut st1 = { store := none, slot := none } ∧
      restartAuth (signOut st1) = .ok { store := none, slot := none } :=
  ⟨by decide,
    c6_signout_restart_loggedOut
      { store := some { privkey := none, pubkey := "p" }, slot := none }
      goodKeyHex (by decide)⟩

/-- C10: the persistence subscription updates the slot only for a session
value that carries a truthy local secret; an external-signer `tryLogin`
stores only the discovered public key, leaves the slot's prior contents
untouched, and — the slot being empty — the external session does not
survive a restart. -/
theorem c10_external_never_persisted (st : AuthState) (pub : String)
    (sk : List Nat) (hst : st.store = none) :
    (∀ s k, hasTruthyPrivkey k = false → (storeSet s k).slot = s.slot) ∧
    ∃ out, tryLogin (.returns pub) sk st = .ok out ∧
      out.state.store = some { privkey := none, pubkey := pub } ∧
      out.state.slot = st.slot ∧
      (st.slot = none →
        restartAuth out.state = .ok { store := none, slot := none }) := by
  constructor
  · intro s k hk
    cases k with
    | none => rfl
    | some kk =>
      cases hpk : kk.privkey with
      | none => simp [storeSet, hpk]
      | some p =>
        simp [hasTruthyPrivkey, hpk] at hk
        simp [storeSet, hpk, hk]
  · obtain ⟨store, slot⟩ := st
    simp only at hst
    subst hst
    refine ⟨_, rfl, rfl, rfl, ?_⟩
    intro hslot
    simp only at hslot
    subst hslot
    rfl

/-- C10 (witness): the theorem applied at a `LoggedOut` state with an empty
slot and a concrete discovered public key. -/
theorem c10_external_never_persisted_witness :
    (({ store := none, slot := none } : AuthState).store = none) ∧
    ∃ out, tryLogin (.returns "extpub") [] { store := none, slot := none } =
        .ok out ∧
      out.state.store = some { privkey := none, pubkey := "extpub" } ∧
      out.state.slot = none ∧
      restartAuth out.state = .ok { store := none, slot := none } := by
  refine ⟨rfl, ?_⟩
  obtain ⟨-, out, h1, h2, h3, h4⟩ :=
    c10_external_never_persisted { store := none, slot := none } "extpub" [] rfl
  exact ⟨out, h1, h2, h3, h4 rfl⟩

/-- C7 (counterexample): when the relay has no metadata for the key, nothing
is cached, so two successive resolutions for the same key issue two relay
queries — contradicting the claim that at most one query is issued. -/
theorem c7_two_queries_counterexample :
    profileQueriesTwice (.found none) (.found none) "somekey" = 2 := rfl

/-- C7 (amended): when the first call's lookup returns a metadata event
authored by the queried key, it is cached and the second call is an
exact-match cache hit returning the cached metadata with no further relay
query (one query in total); a lookup error or absence yields null rather
than a propagated error, but caches nothing, so the second call queries the
relays again. -/
theorem c7_cache_behavior (pk : String) (e : Event) (r2 : RelayLookup)
    (c : List Event) (he : e.pubkey = pk) (hmiss : ∀ x ∈ c, x.pubkey ≠ pk) :
    getProfileMetadata (.found (some e)) c pk = (some e, c ++ [e], 1) ∧
    getProfileMetadata r2 (c ++ [e]) pk = (some e, c ++ [e], 0) ∧
    getProfileMetadata .failed c pk = (none, c, 1) ∧
    getProfileMetadata (.found none) c pk = (none, c, 1) := by
  have hfind : c.find? (fun p => p.pubkey == pk) = none := by
    rw [List.find?_eq_none]
    intro x hx
    simpa using hmiss x hx
  have hfind2 : (c ++ [e]).find? (fun p => p.pubkey == pk) = some e := by
    rw [List.find?_append, hfind]
    simp [he]
  refine ⟨?_, ?_, ?_, ?_⟩ <;> simp [getProfileMetadata, hfind, hfind2]

/-- C7 (witness): the amended theorem at a concrete key, event and empty
cache. -/
theorem c7_cache_behavior_witness :
    (Event.pubkey ⟨0, "", 0, [], "wa", none, none⟩ = "wa") ∧
    getProfileMetadata (.found (some ⟨0, "", 0, [], "wa", none, none⟩)) [] "wa" =
      (some ⟨0, "", 0, [], "wa", none, none⟩,
       [⟨0, "", 0, [], "wa", none, none⟩], 1) ∧
    getProfileMetadata .failed [⟨0, "", 0, [], "wa", none, none⟩] "wa" =
      (some ⟨0, "", 0, [], "wa", none, none⟩,
       [⟨0, "", 0, [], "wa", none, none⟩], 0) := by
  have h := c7_cache_behavior "wa" ⟨0, "", 0, [], "wa", none, none⟩
    .failed [] rfl (by simp)
  exact ⟨rfl, h.1, h.2.1⟩

/-- C8: when the recipient's profile metadata yields no payment callback
endpoint, `createInvoice` fails with the `NoPaymentEndpoint` error (the
code's `Error` named `ZapEndpoint`), fetches no callback URL at all, and the
error is logged once and re-thrown. -/
theorem c8_no_endpoint_no_fetch (c : InvoiceCollab) (now : Nat)
    (dest msg : String) (amount : Nat) (eid pk : String) (pm : Event)
    (h1 : c.decode dest = .ok pk) (h2 : c.profileLookup pk = some pm)
    (h3 : c.zapEndpointOf pm = none) :
    createInvoice c now dest msg amount eid =
      { result := .error noPaymentEndpointErr, fetchedUrls := [],
        jsonParses := 0, logs := 1 } := by
  simp [createInvoice, createInvoiceTry, h1, h2, h3]

/-- C8 (witness): the theorem applied to a concrete collaborator whose
profile has no endpoint. -/
theorem c8_no_endpoint_no_fetch_witness :
    (InvoiceCollab.decode
      { decode := fun _ => .ok "pk1",
        profileLookup := fun _ => some { kind := 0, content := "", created_at := 0,
                                         tags := [], pubkey := "pk1" },
        zapEndpointOf := fun _ => none,
        fetch := fun _ => (200, .ok "") } "dest" = .ok "pk1") ∧
    createInvoice
      { decode := fun _ => .ok "pk1",
        profileLookup := fun _ => some { kind := 0, content := "", created_at := 0,
                                         tags := [], pubkey := "pk1" },
        zapEndpointOf := fun _ => none,
        fetch := fun _ => (200, .ok "") } 5 "dest" "hello" 21 "evt" =
      { result := .error noPaymentEndpointErr, fetchedUrls := [],
        jsonParses := 0, logs := 1 } :=
  ⟨rfl, c8_no_endpoint_no_fetch _ 5 "dest" "hello" 21 "evt" "pk1"
    { kind := 0, content := "", created_at := 0, tags := [], pubkey := "pk1" }
    rfl rfl rfl⟩

/-- C9: whenever the invoice endpoint's HTTP status is outside [200, 300),
`createInvoice` fails with the `InvoiceRequestFailed` error (the code's
`Error` named `InvoiceRequest`), never parses a response body as JSON, and
logs the error once before re-throwing it. -/
theorem c9_bad_status_no_parse (c : InvoiceCollab) (now : Nat)
    (dest msg : String) (amount : Nat) (eid pk zep : String) (pm : Event)
    (u : URLParts)
    (h1 : c.decode dest = .ok pk) (h2 : c.profileLookup pk = some pm)
    (h3 : c.zapEndpointOf pm = some zep) (h4 : parseURL zep = some u)
    (hamt : amount ≠ 0) (hpk : pk ≠ "")
    (hfetch : ∀ url, (c.fetch url).1 < 200 ∨ 300 ≤ (c.fetch url).1) :
    ∃ url, createInvoice c now dest msg amount eid =
      { result := .error invoiceRequestErr, fetchedUrls := [url],
        jsonParses := 0, logs := 1 } := by
  have hstep : ∀ url, invoiceFetchStep c url =
      { result := .error invoiceRequestErr, fetchedUrls := [url],
        jsonParses := 0, logs := 0 } := by
    intro url
    have hno : ¬ (200 ≤ (c.fetch url).1 ∧ (c.fetch url).1 < 300) := by
      rcases hfetch url with h | h <;> omega
    simp [invoiceFetchStep, hno]
  have hz : makeZapRequest pk eid amount relayList msg now =
      .ok { kind := 9734, created_at := now, content := msg,
            tags := [["p", pk], ["amount", toString amount],
                     ["relays"] ++ relayList] ++
                    (if eid ≠ "" then [["e", eid]] else []) } := by
    simp [makeZapRequest, hamt, hpk]
  refine ⟨u.protocol ++ "//" ++ u.host ++ u.pathname ++ "?" ++
    serializeParams (buildParams u.searchPairs msg amount (jsonOfTemplate
      { kind := 9734, created_at := now, content := msg,
        tags := [["p", pk], ["amount", toString amount],
                 ["relays"] ++ relayList] ++
                (if eid ≠ "" then [["e", eid]] else []) })), ?_⟩
  simp [createInvoice, createInvoiceTry, h1, h2, h3, hz, h4, hstep]

/-- C9 (witness): the theorem applied to a concrete collaborator whose
invoice endpoint answers 500. -/
theorem c9_bad_status_no_parse_witness :
    parseURL "https://pay.example/cb" =
      some { protocol := "https:", host := "pay.example", pathname := "/cb",
             searchPairs := [] } ∧
    ∃ url, createInvoice
      { decode := fun _ => .ok "pk1",
        profileLookup := fun _ => some { kind := 0, content := "", created_at := 0,
                                         tags := [], pubkey := "pk1" },
        zapEndpointOf := fun _ => some "https://pay.example/cb",
        fetch := fun _ => (500, .ok "body") } 5 "dest" "hello" 21 "evt" =
      { result := .error invoiceRequestErr, fetchedUrls := [url],
        jsonParses := 0, logs := 1 } :=
  ⟨by decide, c9_bad_status_no_parse _ 5 "dest" "hello" 21 "evt" "pk1"
    "https://pay.example/cb"
    { kind := 0, content := "", created_at := 0, tags := [], pubkey := "pk1" }
    { protocol := "https:", host := "pay.example", pathname := "/cb",
      searchPairs := [] }
    rfl rfl rfl (by decide) (by decide) (by decide)
    (fun _ => Or.inr (show (300 : Nat) ≤ 500 by norm_num))⟩

/-- The zap request the flow builds in the C2 scenario (endpoint
`https://pay.example/cb?foo=1`, amount 1000 sat, comment `gm`, target event
`abc123`, profile key `pk1`, zap request timestamp 77). -/
def c2ZapRequest : EventTemplate :=
  { kind := 9734, created_at := 77, content := "gm",
    tags := [["p", "pk1"], ["amount", "1000"], ["relays"] ++ relayList,
             ["e", "abc123"]] }

/-- The C2 scenario's collaborators. -/
def c2Collab : InvoiceCollab :=
  { decode := fun _ => .ok "pk1",
    profileLookup := fun _ => some { kind := 0, content := "", created_at := 0,
                                     tags := [], pubkey := "pk1" },
    zapEndpointOf := fun _ => some "https://pay.example/cb?foo=1",
    fetch := fun _ => (200, .ok "invoice") }

set_option maxRecDepth 8192 in
/-- C2: evaluating the flow at the claim's scenario. The constructed callback
query has `foo=1` preserved, `comment=gm`, `amount=1000000` (millisatoshi)
and a `nostr` parameter carrying the JSON-serialized zap request, which
references event id `abc123` — but the zap request's amount tag is `"1000"`
(the raw satoshi argument, passed unconverted to `makeZapRequest`), not
`"1000000"` as the claim states. -/
theorem c2_zap_amount_mismatch :
    createInvoice c2Collab 77 "npub1x" "gm" 1000 "abc123" =
      { result := .ok "invoice",
        fetchedUrls := ["https://pay.example/cb?" ++ serializeParams
          [("foo", "1"), ("comment", "gm"), ("amount", "1000000"),
           ("nostr", jsonOfTemplate c2ZapRequest)]],
        jsonParses := 1, logs := 0 } ∧
    ["e", "abc123"] ∈ c2ZapRequest.tags ∧
    ["amount", "1000"] ∈ c2ZapRequest.tags ∧
    ["amount", "1000000"] ∉ c2ZapRequest.tags := by
  refine ⟨by decide, by decide, by decide, by decide⟩

end Nostr
